import Mathlib

/-!
Verification of the unitopia unit-conversion library against its specification.

The development shallowly embeds the TypeScript sources: JavaScript numbers are
modelled as rationals extended with NaN and the two infinities (decimal literals
of the source are embedded as exact rationals; the difference between a decimal
literal and its IEEE-754 double is many orders of magnitude below every
tolerance considered here), JSON values as an inductive type without arrays
(no operation of the library inspects arrays), and the outcome of JSON.parse on
a string input is carried alongside the raw text, with the absent outcome
standing for a thrown syntax error.  Objects are association lists with the
first binding of a key authoritative, matching objects with unique keys.
-/

/-- A JavaScript number: a finite rational, NaN, or one of the two infinities. -/
inductive JsNum where
  | fin (q : ℚ)
  | nan
  | posInf
  | negInf
deriving DecidableEq, Repr

/-- Number.isFinite. -/
def JsNum.isFinite : JsNum → Bool
  | .fin _ => true
  | _ => false

/-- Multiplication of a JavaScript number by a finite conversion factor,
as performed by the convert functions (from.value * FACTORS[from.unit][toUnit]).
Multiplying an infinity by zero yields NaN, as in IEEE-754. -/
def JsNum.mulQ : JsNum → ℚ → JsNum
  | .fin a, f => .fin (a * f)
  | .nan, _ => .nan
  | .posInf, f => if 0 < f then .posInf else if f < 0 then .negInf else .nan
  | .negInf, f => if 0 < f then .negInf else if f < 0 then .posInf else .nan

/-- A JSON-like JavaScript value.  Arrays are omitted: no code path of the
library reads into an array. -/
inductive JsValue where
  | num (n : JsNum)
  | str (s : String)
  | boolean (b : Bool)
  | null
  | obj (fields : List (String × JsValue))

/-- Property lookup on an object, Option.none standing for undefined. -/
def jsLookup (fields : List (String × JsValue)) (k : String) : Option JsValue :=
  match fields with
  | [] => none
  | (key, v) :: rest => if key = k then some v else jsLookup rest k

/-- Does a possibly-undefined value strictly equal a given string
(the test o.dimension !== TAG of the parsers)? -/
def isDimStr (v : Option JsValue) (tag : String) : Bool :=
  match v with
  | some (.str s) => s = tag
  | _ => false

/-- Digits taken greedily from the front of a character list. -/
def takeDigits : List Char → List ℕ × List Char
  | [] => ([], [])
  | c :: rest =>
    if c.isDigit then
      let (ds, r) := takeDigits rest
      (((c.toNat - 48) :: ds), r)
    else ([], c :: rest)

/-- The natural number denoted by a list of decimal digits. -/
def natOfDigits (ds : List ℕ) : ℕ := ds.foldl (fun a d => 10 * a + d) 0

/-- An unsigned decimal numeral, digits with an optional fractional part,
consumed in full; none when the characters are not such a numeral.  This is the
plain-decimal fragment of the ECMAScript string-to-number grammar (hexadecimal
and exponent forms, unused by the claims, are not modelled). -/
def parseDecimal (cs : List Char) : Option ℚ :=
  let (intDs, r1) := takeDigits cs
  match r1 with
  | [] => if intDs.isEmpty then none else some (natOfDigits intDs)
  | '.' :: r2 =>
    let (fracDs, r3) := takeDigits r2
    if r3.isEmpty && !(intDs.isEmpty && fracDs.isEmpty) then
      some ((natOfDigits intDs : ℚ) + (natOfDigits fracDs : ℚ) / (10 ^ fracDs.length))
    else none
  | _ => none

/-- ECMAScript ToNumber on a string: surrounding spaces ignored, the empty
string is zero, otherwise an optionally signed decimal numeral, and NaN for
everything else. -/
def jsStringToNumber (s : String) : JsNum :=
  let cs := ((s.toList.dropWhile (· = ' ')).reverse.dropWhile (· = ' ')).reverse
  match cs with
  | [] => .fin 0
  | '-' :: rest =>
    match parseDecimal rest with
    | some q => .fin (-q)
    | none => .nan
  | '+' :: rest =>
    match parseDecimal rest with
    | some q => .fin q
    | none => .nan
  | _ =>
    match parseDecimal cs with
    | some q => .fin q
    | none => .nan

/-- ECMAScript ToNumber, the Number() coercion applied to data.updatedAt:
numbers pass through, booleans become 0 or 1, null becomes 0, strings go
through the decimal grammar, and a plain object coerces through the string
form [object Object], hence NaN. -/
def jsToNumber : JsValue → JsNum
  | .num n => n
  | .boolean true => .fin 1
  | .boolean false => .fin 0
  | .null => .fin 0
  | .str s => jsStringToNumber s
  | .obj _ => .nan

/-- Input to a parser: an already-parsed object, or a string together with the
outcome of JSON.parse on it (none when JSON.parse throws a syntax error). -/
inductive JsInput where
  | objIn (o : List (String × JsValue))
  | strIn (raw : String) (parsed : Option JsValue)

/-- The string a template literal renders an input as (used by the Time error
messages): a string renders as itself, an object as [object Object]. -/
def JsInput.display : JsInput → String
  | .objIn _ => "[object Object]"
  | .strIn raw _ => raw

/-! ## Length units and conversion factors (src/length.ts) -/

/-- The closed set of length units (LENGTH_UNITS). -/
inductive LengthUnit where
  | kilometer | meter | centimeter | millimeter | nauticalMile
  | mile | yard | foot | inch
deriving DecidableEq, Repr

/-- The unit strings of the length dimension, in source order. -/
def LENGTH_UNITS : List String :=
  ["Kilometer", "Meter", "Centimeter", "Millimeter", "Nautical Mile",
   "Mile", "Yard", "Foot", "Inch"]

/-- The string of a length unit. -/
def LengthUnit.toString : LengthUnit → String
  | .kilometer => "Kilometer"
  | .meter => "Meter"
  | .centimeter => "Centimeter"
  | .millimeter => "Millimeter"
  | .nauticalMile => "Nautical Mile"
  | .mile => "Mile"
  | .yard => "Yard"
  | .foot => "Foot"
  | .inch => "Inch"

/-- All length units, in source order. -/
def lengthUnitList : List LengthUnit :=
  [.kilometer, .meter, .centimeter, .millimeter, .nauticalMile,
   .mile, .yard, .foot, .inch]

/-- The membership test Length.UNITS.includes(unit) together with the cast of
the matching string to the unit type. -/
def lengthUnitOfString (s : String) : Option LengthUnit :=
  lengthUnitList.find? (fun u => u.toString = s)

def km_to_mi : ℚ := 0.6213711922
def mi_to_km : ℚ := 1 / km_to_mi
def m_to_ft : ℚ := 3.280839895
def ft_to_m : ℚ := 1 / m_to_ft

/-- The length conversion factor table (generateLengthConversionFactors),
entry by entry with the exact arithmetic of the source. -/
def lengthFactor : LengthUnit → LengthUnit → ℚ
  | .kilometer, .kilometer => 1
  | .kilometer, .meter => 1000
  | .kilometer, .centimeter => 1000 * 100
  | .kilometer, .millimeter => 1000 * 100 * 10
  | .kilometer, .nauticalMile => 1 / 1.852
  | .kilometer, .mile => km_to_mi
  | .kilometer, .yard => (km_to_mi * 5280) / 3
  | .kilometer, .foot => km_to_mi * 5280
  | .kilometer, .inch => km_to_mi * 5280 * 12
  | .meter, .kilometer => 1 / 1000
  | .meter, .meter => 1
  | .meter, .centimeter => 100
  | .meter, .millimeter => 100 * 10
  | .meter, .nauticalMile => 1 / 1852
  | .meter, .mile => m_to_ft / 5280
  | .meter, .yard => m_to_ft / 3
  | .meter, .foot => m_to_ft
  | .meter, .inch => m_to_ft * 12
  | .centimeter, .kilometer => 1 / 100 / 1000
  | .centimeter, .meter => 1 / 100
  | .centimeter, .centimeter => 1
  | .centimeter, .millimeter => 10
  | .centimeter, .nauticalMile => 1 / 100 / 1852
  | .centimeter, .mile => ((1 / 100) * m_to_ft) / 5280
  | .centimeter, .yard => ((1 / 100) * m_to_ft) / 3
  | .centimeter, .foot => (1 / 100) * m_to_ft
  | .centimeter, .inch => (1 / 100) * m_to_ft * 12
  | .millimeter, .kilometer => 1 / 10 / 100 / 1000
  | .millimeter, .meter => 1 / 10 / 100
  | .millimeter, .centimeter => 1 / 10
  | .millimeter, .millimeter => 1
  | .millimeter, .nauticalMile => 1 / 1000 / 1852
  | .millimeter, .mile => ((1 / 1000) * m_to_ft) / 5280
  | .millimeter, .yard => ((1 / 1000) * m_to_ft) / 5280 / 3
  | .millimeter, .foot => (1 / 1000) * m_to_ft
  | .millimeter, .inch => (1 / 1000) * m_to_ft * 12
  | .nauticalMile, .kilometer => 1 / 1.852
  | .nauticalMile, .meter => 1 / 1852
  | .nauticalMile, .centimeter => 100 / 1852
  | .nauticalMile, .millimeter => 1000 / 1852
  | .nauticalMile, .nauticalMile => 1
  | .nauticalMile, .mile => 1.150779448
  | .nauticalMile, .yard => 1.150779448 * 1760
  | .nauticalMile, .foot => 1.150779448 * 5280
  | .nauticalMile, .inch => 1.150779448 * 5280 * 12
  | .mile, .kilometer => mi_to_km
  | .mile, .meter => mi_to_km * 1000
  | .mile, .centimeter => mi_to_km * 1000 * 100
  | .mile, .millimeter => mi_to_km * 1000 * 1000
  | .mile, .nauticalMile => mi_to_km / 1.852
  | .mile, .mile => 1
  | .mile, .yard => 5280 / 3
  | .mile, .foot => 5280
  | .mile, .inch => 5280 * 12
  | .yard, .kilometer => (3 * ft_to_m) / 1000
  | .yard, .meter => 3 * ft_to_m
  | .yard, .centimeter => 3 * ft_to_m * 100
  | .yard, .millimeter => 3 * ft_to_m * 1000
  | .yard, .nauticalMile => (1 / 1760) * mi_to_km * 1.852
  | .yard, .mile => 3 / 5280
  | .yard, .yard => 1
  | .yard, .foot => 3
  | .yard, .inch => 3 * 12
  | .foot, .kilometer => ft_to_m / 1000
  | .foot, .meter => ft_to_m
  | .foot, .centimeter => ft_to_m * 100
  | .foot, .millimeter => ft_to_m * 1000
  | .foot, .nauticalMile => (1 / 5280) * mi_to_km * 1.852
  | .foot, .mile => 1 / 5280
  | .foot, .yard => 1 / 3
  | .foot, .foot => 1
  | .foot, .inch => 12
  | .inch, .kilometer => ((1 / 12) * ft_to_m) / 1000
  | .inch, .meter => (1 / 12) * ft_to_m
  | .inch, .centimeter => (1 / 12) * ft_to_m * 100
  | .inch, .millimeter => (1 / 12) * ft_to_m * 1000
  | .inch, .nauticalMile => (1 / 5280 / 12) * mi_to_km * 1.852
  | .inch, .mile => 1 / 5280 / 12
  | .inch, .yard => 1 / 12 / 3
  | .inch, .foot => 1 / 12
  | .inch, .inch => 1

/-! ## Mass units and conversion factors (src/mass.ts) -/

/-- The closed set of mass units (MASS_UNITS). -/
inductive MassUnit where
  | kilogram | gram | milligram | shortTon | longTon | tonne | pound | ounce
deriving DecidableEq, Repr

/-- The unit strings of the mass dimension, in source order. -/
def MASS_UNITS : List String :=
  ["Kilogram", "Gram", "Milligram", "Short Ton", "Long Ton", "Tonne",
   "Pound", "Ounce"]

/-- The string of a mass unit. -/
def MassUnit.toString : MassUnit → String
  | .kilogram => "Kilogram"
  | .gram => "Gram"
  | .milligram => "Milligram"
  | .shortTon => "Short Ton"
  | .longTon => "Long Ton"
  | .tonne => "Tonne"
  | .pound => "Pound"
  | .ounce => "Ounce"

/-- All mass units, in source order. -/
def massUnitList : List MassUnit :=
  [.kilogram, .gram, .milligram, .shortTon, .longTon, .tonne, .pound, .ounce]

/-- The membership test Mass.UNITS.includes(unit) together with the cast. -/
def massUnitOfString (s : String) : Option MassUnit :=
  massUnitList.find? (fun u => u.toString = s)

def kg_to_lb : ℚ := 2.2046226218
def lb_to_kg : ℚ := 1 / kg_to_lb

/-- The mass conversion factor table (generateMassConversionFactors),
entry by entry with the exact arithmetic of the source. -/
def massFactor : MassUnit → MassUnit → ℚ
  | .kilogram, .kilogram => 1
  | .kilogram, .gram => 1000
  | .kilogram, .milligram => 100000
  | .kilogram, .shortTon => kg_to_lb / 2000
  | .kilogram, .longTon => 0.0009842065
  | .kilogram, .tonne => 0.001
  | .kilogram, .pound => kg_to_lb
  | .kilogram, .ounce => kg_to_lb * 16
  | .gram, .kilogram => 1 / 1000
  | .gram, .gram => 1
  | .gram, .milligram => 1000
  | .gram, .shortTon => ((1 / 1000) * kg_to_lb) / 2000
  | .gram, .longTon => 9.842065276e-7
  | .gram, .tonne => 0.000001
  | .gram, .pound => (1 / 1000) * kg_to_lb
  | .gram, .ounce => (1 / 1000) * kg_to_lb * 16
  | .milligram, .kilogram => 1 / 100000
  | .milligram, .gram => 1 / 1000
  | .milligram, .milligram => 1
  | .milligram, .shortTon => ((1 / 100000) * kg_to_lb) / 2000
  | .milligram, .longTon => 9.842065276e-10
  | .milligram, .tonne => 1e-9
  | .milligram, .pound => (1 / 100000) * kg_to_lb
  | .milligram, .ounce => (1 / 100000) * kg_to_lb * 16
  | .shortTon, .kilogram => 2000 * lb_to_kg
  | .shortTon, .gram => 2000 * lb_to_kg * 1000
  | .shortTon, .milligram => 2000 * lb_to_kg * 1000000
  | .shortTon, .shortTon => 1
  | .shortTon, .longTon => 0.8928571429
  | .shortTon, .tonne => 0.90718474
  | .shortTon, .pound => 2000
  | .shortTon, .ounce => 2000 * 16
  | .longTon, .kilogram => 1016.0469088
  | .longTon, .gram => 1016046.9088
  | .longTon, .milligram => 1016046908.8
  | .longTon, .shortTon => 1.12
  | .longTon, .longTon => 1
  | .longTon, .tonne => 1.0160469088
  | .longTon, .pound => 2240
  | .longTon, .ounce => 2240 * 16
  | .tonne, .kilogram => 1000
  | .tonne, .gram => 1000 * 1000
  | .tonne, .milligram => 1000 * 1000 * 1000
  | .tonne, .shortTon => 1.1023113109
  | .tonne, .longTon => 0.9842065276
  | .tonne, .tonne => 1
  | .tonne, .pound => 1000 * kg_to_lb
  | .tonne, .ounce => 1000 * kg_to_lb * 16
  | .pound, .kilogram => lb_to_kg
  | .pound, .gram => lb_to_kg * 1000
  | .pound, .milligram => lb_to_kg * 1000 * 1000
  | .pound, .shortTon => 1 / 2000
  | .pound, .longTon => 0.0004464286
  | .pound, .tonne => lb_to_kg / 1000
  | .pound, .pound => 1
  | .pound, .ounce => 16
  | .ounce, .kilogram => (1 / 16) * lb_to_kg
  | .ounce, .gram => (1 / 16) * lb_to_kg * 1000
  | .ounce, .milligram => (1 / 16) * lb_to_kg * 1000 * 1000
  | .ounce, .shortTon => 1 / 16 / 2000
  | .ounce, .longTon => 0.0000279018
  | .ounce, .tonne => ((1 / 16) * lb_to_kg) / 1000
  | .ounce, .pound => 1 / 16
  | .ounce, .ounce => 1

/-! ## Time units and conversion factors (src/time.ts) -/

/-- The closed set of time units (TIME_UNITS). -/
inductive TimeUnit where
  | week | day | hour | minute | second
deriving DecidableEq, Repr

/-- The unit strings of the time dimension, in source order. -/
def TIME_UNITS : List String := ["Week", "Day", "Hour", "Minute", "Second"]

/-- The string of a time unit. -/
def TimeUnit.toString : TimeUnit → String
  | .week => "Week"
  | .day => "Day"
  | .hour => "Hour"
  | .minute => "Minute"
  | .second => "Second"

/-- All time units, in source order. -/
def timeUnitList : List TimeUnit := [.week, .day, .hour, .minute, .second]

/-- The membership test Time.UNITS.includes(unit) together with the cast. -/
def timeUnitOfString (s : String) : Option TimeUnit :=
  timeUnitList.find? (fun u => u.toString = s)

/-- The time conversion factor table (generateTimeConversionFactors). -/
def timeFactor : TimeUnit → TimeUnit → ℚ
  | .week, .week => 1
  | .week, .day => 7
  | .week, .hour => 7 * 24
  | .week, .minute => 7 * 24 * 60
  | .week, .second => 7 * 24 * 60 * 60
  | .day, .week => 1 / 7
  | .day, .day => 1
  | .day, .hour => 24
  | .day, .minute => 24 * 60
  | .day, .second => 24 * 60 * 60
  | .hour, .week => 1 / 7 / 24
  | .hour, .day => 1 / 24
  | .hour, .hour => 1
  | .hour, .minute => 60
  | .hour, .second => 60 * 60
  | .minute, .week => 1 / 7 / 24 / 60
  | .minute, .day => 1 / 24 / 60
  | .minute, .hour => 1 / 60
  | .minute, .minute => 1
  | .minute, .second => 60
  | .second, .week => 1 / 7 / 24 / 60 / 60
  | .second, .day => 1 / 24 / 60 / 60
  | .second, .hour => 1 / 60 / 60
  | .second, .minute => 1 / 60
  | .second, .second => 1

/-! ## Money units (src/money.ts enums) -/

/-- The closed set of money units: the supported ISO currency codes followed by
the supported cryptocurrency tickers (MONEY_UNITS). -/
inductive MoneyUnit where
  | AUD | BRL | CAD | CHF | CNY | CZK | DKK | EUR | GBP | HKD
  | HUF | ILS | JPY | MXN | MYR | NOK | NZD | PHP | PLN | SGD
  | SEK | TWD | THB | TRY | USD | BTC | BCH | ETH | XNO | USDT
deriving DecidableEq, Repr

/-- The unit strings of the money dimension, in source order. -/
def MONEY_UNITS : List String :=
  ["AUD", "BRL", "CAD", "CHF", "CNY", "CZK", "DKK", "EUR", "GBP", "HKD",
   "HUF", "ILS", "JPY", "MXN", "MYR", "NOK", "NZD", "PHP", "PLN", "SGD",
   "SEK", "TWD", "THB", "TRY", "USD", "BTC", "BCH", "ETH", "XNO", "USDT"]

/-- The string of a money unit. -/
def MoneyUnit.toString : MoneyUnit → String
  | .AUD => "AUD"
  | .BRL => "BRL"
  | .CAD => "CAD"
  | .CHF => "CHF"
  | .CNY => "CNY"
  | .CZK => "CZK"
  | .DKK => "DKK"
  | .EUR => "EUR"
  | .GBP => "GBP"
  | .HKD => "HKD"
  | .HUF => "HUF"
  | .ILS => "ILS"
  | .JPY => "JPY"
  | .MXN => "MXN"
  | .MYR => "MYR"
  | .NOK => "NOK"
  | .NZD => "NZD"
  | .PHP => "PHP"
  | .PLN => "PLN"
  | .SGD => "SGD"
  | .SEK => "SEK"
  | .TWD => "TWD"
  | .THB => "THB"
  | .TRY => "TRY"
  | .USD => "USD"
  | .BTC => "BTC"
  | .BCH => "BCH"
  | .ETH => "ETH"
  | .XNO => "XNO"
  | .USDT => "USDT"

/-- All money units, in source order. -/
def moneyUnitList : List MoneyUnit :=
  [.AUD, .BRL, .CAD, .CHF, .CNY, .CZK, .DKK, .EUR, .GBP, .HKD,
   .HUF, .ILS, .JPY, .MXN, .MYR, .NOK, .NZD, .PHP, .PLN, .SGD,
   .SEK, .TWD, .THB, .TRY, .USD, .BTC, .BCH, .ETH, .XNO, .USDT]

/-- The membership test Money.UNITS.includes(unit) together with the cast. -/
def moneyUnitOfString (s : String) : Option MoneyUnit :=
  moneyUnitList.find? (fun u => u.toString = s)

/-! ## Quantity value types and conversion -/

/-- A length quantity: the fields value and unit of class Length, whose
dimension field is the constant tag Length. -/
structure Length where
  value : JsNum
  unit : LengthUnit
deriving DecidableEq, Repr

/-- The readonly dimension field of a Length instance. -/
def Length.dimension (_ : Length) : String := "Length"

/-- Length.convert: multiply by the table factor, retag with the target unit. -/
def Length.convert (src : Length) (toUnit : LengthUnit) : Length :=
  ⟨src.value.mulQ (lengthFactor src.unit toUnit), toUnit⟩

/-- Length.normalize: convert each element to the target unit. -/
def Length.normalize (lengths : List Length) (toUnit : LengthUnit) : List Length :=
  lengths.map (fun l => Length.convert l toUnit)

/-- A mass quantity (class Mass). -/
structure Mass where
  value : JsNum
  unit : MassUnit
deriving DecidableEq, Repr

/-- The readonly dimension field of a Mass instance. -/
def Mass.dimension (_ : Mass) : String := "Mass"

/-- Mass.convert. -/
def Mass.convert (src : Mass) (toUnit : MassUnit) : Mass :=
  ⟨src.value.mulQ (massFactor src.unit toUnit), toUnit⟩

/-- Mass.normalize. -/
def Mass.normalize (masses : List Mass) (toUnit : MassUnit) : List Mass :=
  masses.map (fun m => Mass.convert m toUnit)

/-- A time quantity (class Time). -/
structure Time where
  value : JsNum
  unit : TimeUnit
deriving DecidableEq, Repr

/-- The readonly dimension field of a Time instance. -/
def Time.dimension (_ : Time) : String := "Time"

/-- Time.convert. -/
def Time.convert (src : Time) (toUnit : TimeUnit) : Time :=
  ⟨src.value.mulQ (timeFactor src.unit toUnit), toUnit⟩

/-- Time.normalize. -/
def Time.normalize (times : List Time) (toUnit : TimeUnit) : List Time :=
  times.map (fun t => Time.convert t toUnit)

/-- A money quantity (class Money): value, unit and the updatedAt timestamp.
The class has no convert or normalize; currency conversion is deferred to a
future service integration. -/
structure Money where
  value : JsNum
  unit : MoneyUnit
  updatedAt : JsNum
deriving DecidableEq, Repr

/-- The readonly dimension field of a Money instance. -/
def Money.dimension (_ : Money) : String := "Money"

/-! ## Parsers

Length follows the current snapshot of src/length.ts (structured errors with
context payloads), Mass the corresponding snapshot of src/money-style mass
module, Time the string-error snapshot of src/time.ts, and Money src/money.ts.
-/

/-- The error cases of Length.tryParse (type LengthParseError), each carrying
the context payload the source attaches.  The invalid-JSON case also carries
the raw input in the source; no claim inspects it, so the payload is elided. -/
inductive LengthParseError where
  | valueNonNumeric (value : Option JsValue)
  | unitMissingOrInvalid (unit : Option JsValue)
  | unsupportedUnit (unit : Option JsValue)
  | dimensionNotLength (dimension : Option JsValue)
  | invalidJson

/-- The error string of a LengthParseError, exactly the template literal of
the source. -/
def LengthParseError.kind : LengthParseError → String
  | .valueNonNumeric _ => "data.value is non-numeric"
  | .unitMissingOrInvalid _ => "data.unit is missing or invalid"
  | .unsupportedUnit _ => "unsupported length unit"
  | .dimensionNotLength _ => "data.dimension is not Length"
  | .invalidJson => "invalid JSON"

/-- The discriminated result of Length.tryParse. -/
inductive LengthParseResult where
  | ok (length : Length)
  | err (e : LengthParseError)

/-- The error kind of a result, none on success. -/
def LengthParseResult.errKind : LengthParseResult → Option String
  | .ok _ => none
  | .err e => some e.kind

/-- The body of Length.tryParse once the input is an object: validate value,
unit, unit membership, then construct the candidate and check dimension.
The dimension-error payload is length.dimension, the constant of the freshly
constructed candidate. -/
def Length.tryParseCore (o : List (String × JsValue)) : LengthParseResult :=
  match jsLookup o "value" with
  | some (.num v) =>
    match jsLookup o "unit" with
    | some (.str s) =>
      match lengthUnitOfString s with
      | some u =>
        let length : Length := ⟨v, u⟩
        if isDimStr (jsLookup o "dimension") "Length" then .ok length
        else .err (.dimensionNotLength (some (.str length.dimension)))
      | none => .err (.unsupportedUnit (some (.str s)))
    | other => .err (.unitMissingOrInvalid other)
  | other => .err (.valueNonNumeric other)

/-- Length.tryParse on a raw input.  A string whose JSON.parse throws gives the
invalid-JSON error; a parsed null gives it too (property access on null throws
inside the try block); any other parsed non-object has no value property, so
the value check fails as for an empty object. -/
def Length.tryParse : JsInput → LengthParseResult
  | .objIn o => Length.tryParseCore o
  | .strIn _ none => .err .invalidJson
  | .strIn _ (some v) =>
    match v with
    | .obj o => Length.tryParseCore o
    | .null => .err .invalidJson
    | _ => .err (.valueNonNumeric none)

/-- Length.parse: rethrow the error string of tryParse, or return the quantity. -/
def Length.parse (data : JsInput) : Except String Length :=
  match Length.tryParse data with
  | .ok l => .ok l
  | .err e => .error e.kind

/-- The error cases of Mass.tryParse (type MassParseError).  The unsupported
unit case carries the copy-pasted template literal naming length. -/
inductive MassParseError where
  | valueNonNumeric (value : Option JsValue)
  | unitMissingOrInvalid (unit : Option JsValue)
  | unsupportedUnit (unit : Option JsValue)
  | dimensionNotMass (dimension : Option JsValue)
  | invalidJson

/-- The error string of a MassParseError, exactly the template literal of the
source (the unsupported-unit string says length). -/
def MassParseError.kind : MassParseError → String
  | .valueNonNumeric _ => "data.value is non-numeric"
  | .unitMissingOrInvalid _ => "data.unit is missing or invalid"
  | .unsupportedUnit _ => "unsupported length unit"
  | .dimensionNotMass _ => "data.dimension is not Mass"
  | .invalidJson => "invalid JSON"

/-- The discriminated result of Mass.tryParse. -/
inductive MassParseResult where
  | ok (mass : Mass)
  | err (e : MassParseError)

/-- The error kind of a result, none on success. -/
def MassParseResult.errKind : MassParseResult → Option String
  | .ok _ => none
  | .err e => some e.kind

/-- The body of Mass.tryParse on an object.  The dimension-error payload is
o.dimension, the offending input value. -/
def Mass.tryParseCore (o : List (String × JsValue)) : MassParseResult :=
  match jsLookup o "value" with
  | some (.num v) =>
    match jsLookup o "unit" with
    | some (.str s) =>
      match massUnitOfString s with
      | some u =>
        let mass : Mass := ⟨v, u⟩
        if isDimStr (jsLookup o "dimension") "Mass" then .ok mass
        else .err (.dimensionNotMass (jsLookup o "dimension"))
      | none => .err (.unsupportedUnit (some (.str s)))
    | other => .err (.unitMissingOrInvalid other)
  | other => .err (.valueNonNumeric other)

/-- Mass.tryParse on a raw input. -/
def Mass.tryParse : JsInput → MassParseResult
  | .objIn o => Mass.tryParseCore o
  | .strIn _ none => .err .invalidJson
  | .strIn _ (some v) =>
    match v with
    | .obj o => Mass.tryParseCore o
    | .null => .err .invalidJson
    | _ => .err (.valueNonNumeric none)

/-- Mass.parse. -/
def Mass.parse (data : JsInput) : Except String Mass :=
  match Mass.tryParse data with
  | .ok m => .ok m
  | .err e => .error e.kind

/-- The discriminated result of Time.tryParse; the source returns plain string
errors for Time, with the unit and the raw input interpolated into them. -/
inductive TimeParseResult where
  | ok (time : Time)
  | err (error : String)

/-- The error string of a result, none on success. -/
def TimeParseResult.errMsg : TimeParseResult → Option String
  | .ok _ => none
  | .err e => some e

/-- The body of Time.tryParse on an object.  The unsupported-unit message is
the copy-pasted template naming length, with the offending unit appended. -/
def Time.tryParseCore (o : List (String × JsValue)) : TimeParseResult :=
  match jsLookup o "value" with
  | some (.num v) =>
    match jsLookup o "unit" with
    | some (.str s) =>
      match timeUnitOfString s with
      | some u =>
        let time : Time := ⟨v, u⟩
        if isDimStr (jsLookup o "dimension") "Time" then .ok time
        else .err ("data.dimension is not " ++ time.dimension)
      | none => .err ("unsupported length unit: " ++ s)
    | _ => .err "data.unit is missing or invalid"
  | _ => .err "data.value is non-numeric"

/-- Time.tryParse on a raw input. -/
def Time.tryParse (data : JsInput) : TimeParseResult :=
  match data with
  | .objIn o => Time.tryParseCore o
  | .strIn _ none => .err ("invalid JSON: " ++ data.display)
  | .strIn _ (some v) =>
    match v with
    | .obj o => Time.tryParseCore o
    | .null => .err ("invalid JSON: " ++ data.display)
    | _ => .err "data.value is non-numeric"

/-- Time.parse. -/
def Time.parse (data : JsInput) : Except String Time :=
  match Time.tryParse data with
  | .ok t => .ok t
  | .err e => .error e

/-- The error cases of Money.tryParse (type MoneyParseError): the
missing-or-invalid-unit case carries no payload, the unsupported-unit case
carries the offending unit string, and the invalid-updatedAt case carries the
already-coerced number. -/
inductive MoneyParseError where
  | valueNonNumeric (value : Option JsValue)
  | unitMissingOrInvalid
  | unsupportedUnit (unit : String)
  | updatedAtInvalid (updatedAt : JsNum)
  | dimensionNotMoney (dimension : Option JsValue)
  | invalidJson

/-- The error string of a MoneyParseError, exactly the template literal of the
source. -/
def MoneyParseError.kind : MoneyParseError → String
  | .valueNonNumeric _ => "data.value is non-numeric"
  | .unitMissingOrInvalid => "data.unit is missing or invalid"
  | .unsupportedUnit _ => "unsupported currency (money unit)"
  | .updatedAtInvalid _ => "data.updatedAt is non-numeric or invalid"
  | .dimensionNotMoney _ => "data.dimension is not Money"
  | .invalidJson => "invalid JSON"

/-- A parse warning (type MoneyParseWarning); its warning field is the constant
missing-timestamp string and it carries the timestamp that was used. -/
structure MoneyParseWarning where
  currentTimestamp : ℚ
deriving DecidableEq, Repr

/-- The warning field of a MoneyParseWarning. -/
def MoneyParseWarning.warning (_ : MoneyParseWarning) : String :=
  "data.updatedAt is missing; using current timestamp"

/-- The discriminated result of Money.tryParse: a money quantity together with
the warnings list, or an error. -/
inductive MoneyParseResult where
  | ok (money : Money) (warnings : List MoneyParseWarning)
  | err (e : MoneyParseError)

/-- The error kind of a result, none on success. -/
def MoneyParseResult.errKind : MoneyParseResult → Option String
  | .ok _ _ => none
  | .err e => some e.kind

/-- The body of Money.tryParse on an object; now is the value Date.now() reads
during the call.  When updatedAt is present its Number() coercion must be
finite; when absent, now is used and the single missing-timestamp warning is
pushed.  The dimension check runs last, on the constructed candidate. -/
def Money.tryParseCore (now : ℚ) (o : List (String × JsValue)) : MoneyParseResult :=
  match jsLookup o "value" with
  | some (.num v) =>
    match jsLookup o "unit" with
    | some (.str s) =>
      match moneyUnitOfString s with
      | some u =>
        match jsLookup o "updatedAt" with
        | some uv =>
          if (jsToNumber uv).isFinite then
            if isDimStr (jsLookup o "dimension") "Money" then
              .ok ⟨v, u, jsToNumber uv⟩ []
            else .err (.dimensionNotMoney (jsLookup o "dimension"))
          else .err (.updatedAtInvalid (jsToNumber uv))
        | none =>
          let money : Money := ⟨v, u, .fin now⟩
          if isDimStr (jsLookup o "dimension") "Money" then .ok money [⟨now⟩]
          else .err (.dimensionNotMoney (jsLookup o "dimension"))
      | none => .err (.unsupportedUnit s)
    | _ => .err .unitMissingOrInvalid
  | other => .err (.valueNonNumeric other)

/-- Money.tryParse on a raw input. -/
def Money.tryParse (now : ℚ) : JsInput → MoneyParseResult
  | .objIn o => Money.tryParseCore now o
  | .strIn _ none => .err .invalidJson
  | .strIn _ (some v) =>
    match v with
    | .obj o => Money.tryParseCore now o
    | .null => .err .invalidJson
    | _ => .err (.valueNonNumeric none)

/-- Money.parse: rethrow the error string of tryParse; when a callback was
supplied and the warnings list is non-empty, invoke it once with the full list
before returning.  The second component records the invocations of the
callback, each with its argument. -/
def Money.parse (now : ℚ) (data : JsInput) (hasCallback : Bool) :
    Except String (Money × List (List MoneyParseWarning)) :=
  match Money.tryParse now data with
  | .ok m ws => .ok (m, if hasCallback && ws.length > 0 then [ws] else [])
  | .err e => .error e.kind

/-! ## Serialization

JSON.stringify of a quantity writes its public fields; a non-finite number
serializes as null.  Parsing the serialized text yields the object below, so
the round trip of the spec is tryParseCore applied to it. -/

/-- The JSON encoding of a JavaScript number: NaN and the infinities render as
null. -/
def jsonOfNum : JsNum → JsValue
  | .fin q => .num (.fin q)
  | _ => .null

/-- The JSON object JSON.stringify produces for a Length. -/
def Length.toJson (l : Length) : List (String × JsValue) :=
  [("dimension", .str "Length"), ("value", jsonOfNum l.value),
   ("unit", .str l.unit.toString)]

/-- The JSON object JSON.stringify produces for a Mass. -/
def Mass.toJson (m : Mass) : List (String × JsValue) :=
  [("dimension", .str "Mass"), ("value", jsonOfNum m.value),
   ("unit", .str m.unit.toString)]

/-- The JSON object JSON.stringify produces for a Time. -/
def Time.toJson (t : Time) : List (String × JsValue) :=
  [("dimension", .str "Time"), ("value", jsonOfNum t.value),
   ("unit", .str t.unit.toString)]

/-- The JSON object JSON.stringify produces for a Money. -/
def Money.toJson (m : Money) : List (String × JsValue) :=
  [("dimension", .str "Money"), ("value", jsonOfNum m.value),
   ("unit", .str m.unit.toString), ("updatedAt", jsonOfNum m.updatedAt)]

/-! ## Helper lemmas -/

/-- Every diagonal entry of the length table is the literal 1. -/
theorem lengthFactor_diag (u : LengthUnit) : lengthFactor u u = 1 := by
  cases u <;> rfl

/-- Every diagonal entry of the mass table is the literal 1. -/
theorem massFactor_diag (u : MassUnit) : massFactor u u = 1 := by
  cases u <;> rfl

/-- Every diagonal entry of the time table is the literal 1. -/
theorem timeFactor_diag (u : TimeUnit) : timeFactor u u = 1 := by
  cases u <;> rfl

/-- Multiplying any JavaScript number by the factor 1 returns it unchanged. -/
theorem JsNum.mulQ_one (x : JsNum) : x.mulQ 1 = x := by
  cases x <;> simp [JsNum.mulQ]

/-- The string of every length unit is in the unit-string list. -/
theorem lengthUnit_toString_mem (u : LengthUnit) : u.toString ∈ LENGTH_UNITS := by
  cases u <;> simp [LENGTH_UNITS, LengthUnit.toString]

/-- The string of every mass unit is in the unit-string list. -/
theorem massUnit_toString_mem (u : MassUnit) : u.toString ∈ MASS_UNITS := by
  cases u <;> simp [MASS_UNITS, MassUnit.toString]

/-- The string of every time unit is in the unit-string list. -/
theorem timeUnit_toString_mem (u : TimeUnit) : u.toString ∈ TIME_UNITS := by
  cases u <;> simp [TIME_UNITS, TimeUnit.toString]

/-- The string of every money unit is in the unit-string list. -/
theorem moneyUnit_toString_mem (u : MoneyUnit) : u.toString ∈ MONEY_UNITS := by
  cases u <;> simp [MONEY_UNITS, MoneyUnit.toString]

/-- A successful membership cast recovers the looked-up string. -/
theorem lengthUnitOfString_eq_some {s : String} {u : LengthUnit}
    (h : lengthUnitOfString s = some u) : u.toString = s := by
  unfold lengthUnitOfString at h
  have := List.find?_some h
  simpa using this

/-- A successful membership cast recovers the looked-up string. -/
theorem massUnitOfString_eq_some {s : String} {u : MassUnit}
    (h : massUnitOfString s = some u) : u.toString = s := by
  unfold massUnitOfString at h
  have := List.find?_some h
  simpa using this

/-- A successful membership cast recovers the looked-up string. -/
theorem timeUnitOfString_eq_some {s : String} {u : TimeUnit}
    (h : timeUnitOfString s = some u) : u.toString = s := by
  unfold timeUnitOfString at h
  have := List.find?_some h
  simpa using this

/-- A successful membership cast recovers the looked-up string. -/
theorem moneyUnitOfString_eq_some {s : String} {u : MoneyUnit}
    (h : moneyUnitOfString s = some u) : u.toString = s := by
  unfold moneyUnitOfString at h
  have := List.find?_some h
  simpa using this

/-- The membership cast succeeds on the string of every length unit. -/
theorem lengthUnitOfString_toString (u : LengthUnit) :
    lengthUnitOfString u.toString = some u := by
  cases u <;> rfl

/-- The membership cast succeeds on the string of every mass unit. -/
theorem massUnitOfString_toString (u : MassUnit) :
    massUnitOfString u.toString = some u := by
  cases u <;> rfl

/-- The membership cast succeeds on the string of every time unit. -/
theorem timeUnitOfString_toString (u : TimeUnit) :
    timeUnitOfString u.toString = some u := by
  cases u <;> rfl

/-- The membership cast succeeds on the string of every money unit. -/
theorem moneyUnitOfString_toString (u : MoneyUnit) :
    moneyUnitOfString u.toString = some u := by
  cases u <;> rfl

/-! ## Claims -/

/-- Claim C1.  The inverse-consistency property fails on the mass table: the
Milligram row was derived from the wrong Kilogram-to-Milligram constant 100000
while the Pound row uses the physically correct 1000000, so converting one
milligram to pounds and back yields exactly ten milligrams, far outside any
floating-point tolerance. -/
theorem massConvert_roundTrip_milligram_pound_bug :
    Mass.convert (Mass.convert ⟨.fin 1, .milligram⟩ .pound) .milligram =
      ⟨.fin 10, .milligram⟩ ∧
    JsNum.fin 10 ≠ JsNum.fin 1 := by
  constructor
  · simp [Mass.convert, massFactor, JsNum.mulQ, kg_to_lb, lb_to_kg]
    norm_num
  · simp

/-- Claim C2.  The internal-consistency invariant of the factor tables fails:
the direct mass entry from Kilogram to Milligram is 100000, but composing
Kilogram to Gram with Gram to Milligram gives 1000000, a factor-of-ten
discrepancy rather than a rounding-level one. -/
theorem massFactor_table_transitivity_bug :
    massFactor .kilogram .milligram = 100000 ∧
    massFactor .kilogram .gram * massFactor .gram .milligram = 1000000 ∧
    (100000 : ℚ) ≠ 1000000 := by
  refine ⟨by norm_num [massFactor], by norm_num [massFactor], by norm_num⟩

/-- Claim C6.  Every self-conversion factor of the three factor tables is the
literal 1, and converting any quantity to its own unit returns the identical
quantity, the value untouched, for every value including NaN and the
infinities. -/
theorem convert_self_unit_identity :
    (∀ u, lengthFactor u u = 1) ∧
    (∀ u, massFactor u u = 1) ∧
    (∀ u, timeFactor u u = 1) ∧
    (∀ (v : JsNum) (u : LengthUnit), Length.convert ⟨v, u⟩ u = ⟨v, u⟩) ∧
    (∀ (v : JsNum) (u : MassUnit), Mass.convert ⟨v, u⟩ u = ⟨v, u⟩) ∧
    (∀ (v : JsNum) (u : TimeUnit), Time.convert ⟨v, u⟩ u = ⟨v, u⟩) := by
  refine ⟨lengthFactor_diag, massFactor_diag, timeFactor_diag, ?_, ?_, ?_⟩
  · intro v u
    simp [Length.convert, lengthFactor_diag, JsNum.mulQ_one]
  · intro v u
    simp [Mass.convert, massFactor_diag, JsNum.mulQ_one]
  · intro v u
    simp [Time.convert, timeFactor_diag, JsNum.mulQ_one]

/-- Claim C7.  Each tryParse is a total function into a discriminated success
or error result (the never-raises contract of the source: every throwing
operation sits inside the try block whose catch returns the invalid-JSON
error), and on the empty object every dimension yields the non-numeric-value
error. -/
theorem tryParse_total_and_empty_object_errs :
    (∀ data, (∃ l, Length.tryParse data = .ok l) ∨ (∃ e, Length.tryParse data = .err e)) ∧
    (∀ data, (∃ m, Mass.tryParse data = .ok m) ∨ (∃ e, Mass.tryParse data = .err e)) ∧
    (∀ data, (∃ t, Time.tryParse data = .ok t) ∨ (∃ e, Time.tryParse data = .err e)) ∧
    (∀ now data, (∃ m ws, Money.tryParse now data = .ok m ws) ∨
      (∃ e, Money.tryParse now data = .err e)) ∧
    Length.tryParse (.objIn []) = .err (.valueNonNumeric none) ∧
    Mass.tryParse (.objIn []) = .err (.valueNonNumeric none) ∧
    Time.tryParse (.objIn []) = .err "data.value is non-numeric" ∧
    (∀ now : ℚ, Money.tryParse now (.objIn []) = .err (.valueNonNumeric none)) := by
  refine ⟨?_, ?_, ?_, ?_, rfl, rfl, rfl, fun _ => rfl⟩
  · intro data
    cases Length.tryParse data with
    | ok l => exact Or.inl ⟨l, rfl⟩
    | err e => exact Or.inr ⟨e, rfl⟩
  · intro data
    cases Mass.tryParse data with
    | ok m => exact Or.inl ⟨m, rfl⟩
    | err e => exact Or.inr ⟨e, rfl⟩
  · intro data
    cases Time.tryParse data with
    | ok t => exact Or.inl ⟨t, rfl⟩
    | err e => exact Or.inr ⟨e, rfl⟩
  · intro now data
    cases Money.tryParse now data with
    | ok m ws => exact Or.inl ⟨m, ws, rfl⟩
    | err e => exact Or.inr ⟨e, rfl⟩

/-- Claim C3, counterexample.  The Mass parser rejects the unknown unit Stone
with the copy-pasted error kind naming length, not the kind naming mass that
the claim states. -/
theorem massParse_unsupported_unit_kind_cex :
    Mass.tryParseCore
      [("dimension", .str "Mass"), ("unit", .str "Stone"), ("value", .num (.fin 1))] =
      .err (.unsupportedUnit (some (.str "Stone"))) ∧
    MassParseError.kind (.unsupportedUnit (some (.str "Stone"))) =
      "unsupported length unit" ∧
    "unsupported length unit" ≠ "unsupported mass unit" := by
  exact ⟨rfl, rfl, by decide⟩

/-- Claim C3, amended.  On an input whose unit field is a string outside the
unit set, Length reports the kind naming length; Mass and Time report the same
copy-pasted kind naming length (Time appending the offending unit to the
message); Money reports the kind naming currency. -/
theorem unsupported_unit_error_kinds (o : List (String × JsValue)) (v : JsNum)
    (s : String)
    (hv : jsLookup o "value" = some (.num v))
    (hu : jsLookup o "unit" = some (.str s))
    (hl : lengthUnitOfString s = none)
    (hm : massUnitOfString s = none)
    (ht : timeUnitOfString s = none)
    (hmo : moneyUnitOfString s = none) :
    (Length.tryParseCore o).errKind = some "unsupported length unit" ∧
    (Mass.tryParseCore o).errKind = some "unsupported length unit" ∧
    (Time.tryParseCore o).errMsg = some ("unsupported length unit: " ++ s) ∧
    ∀ now : ℚ, (Money.tryParseCore now o).errKind =
      some "unsupported currency (money unit)" := by
  refine ⟨?_, ?_, ?_, fun now => ?_⟩
  · simp [Length.tryParseCore, hv, hu, hl, LengthParseResult.errKind,
      LengthParseError.kind]
  · simp [Mass.tryParseCore, hv, hu, hm, MassParseResult.errKind,
      MassParseError.kind]
  · simp [Time.tryParseCore, hv, hu, ht, TimeParseResult.errMsg]
  · simp [Money.tryParseCore, hv, hu, hmo, MoneyParseResult.errKind,
      MoneyParseError.kind]

/-- Claim C3, witness for the amended theorem at the unit string Stone. -/
theorem unsupported_unit_error_kinds_witness :
    (Length.tryParseCore
      [("dimension", .str "Length"), ("unit", .str "Stone"),
       ("value", .num (.fin 1))]).errKind = some "unsupported length unit" ∧
    (Mass.tryParseCore
      [("dimension", .str "Length"), ("unit", .str "Stone"),
       ("value", .num (.fin 1))]).errKind = some "unsupported length unit" ∧
    (Time.tryParseCore
      [("dimension", .str "Length"), ("unit", .str "Stone"),
       ("value", .num (.fin 1))]).errMsg =
        some ("unsupported length unit: " ++ "Stone") ∧
    (Money.tryParseCore 0
      [("dimension", .str "Length"), ("unit", .str "Stone"),
       ("value", .num (.fin 1))]).errKind =
        some "unsupported currency (money unit)" := by
  have h := unsupported_unit_error_kinds
    [("dimension", .str "Length"), ("unit", .str "Stone"), ("value", .num (.fin 1))]
    (.fin 1) "Stone" rfl rfl rfl rfl rfl rfl
  exact ⟨h.1, h.2.1, h.2.2.1, h.2.2.2 0⟩

/-- Claim C4, counterexample.  An updatedAt field holding the boolean true is
not rejected: Number coercion turns it into the finite number 1 and the parse
succeeds, contradicting the claimed error on any non-numeric type. -/
theorem moneyParse_boolean_updatedAt_cex :
    Money.tryParseCore 0
      [("dimension", .str "Money"), ("unit", .str "USD"),
       ("value", .num (.fin 15)), ("updatedAt", .boolean true)] =
      .ok ⟨.fin 15, .USD, .fin 1⟩ [] ∧
    (Money.tryParseCore 0
      [("dimension", .str "Money"), ("unit", .str "USD"),
       ("value", .num (.fin 15)), ("updatedAt", .boolean true)]).errKind = none := by
  exact ⟨rfl, rfl⟩

/-- Claim C4, amended.  With the earlier validations passed and updatedAt
present, the parser applies the Number coercion to it: when the coerced number
is not finite the updatedAt error (carrying the coerced number) is returned,
and when it is finite the parse succeeds with the coerced number as the
timestamp and no warnings. -/
theorem money_updatedAt_coercion (now : ℚ) (o : List (String × JsValue))
    (v : JsNum) (s : String) (u : MoneyUnit) (uv : JsValue)
    (hv : jsLookup o "value" = some (.num v))
    (hu : jsLookup o "unit" = some (.str s))
    (hs : moneyUnitOfString s = some u)
    (hup : jsLookup o "updatedAt" = some uv) :
    ((jsToNumber uv).isFinite = false →
      Money.tryParseCore now o = .err (.updatedAtInvalid (jsToNumber uv))) ∧
    ((jsToNumber uv).isFinite = true →
      isDimStr (jsLookup o "dimension") "Money" = true →
      Money.tryParseCore now o = .ok ⟨v, u, jsToNumber uv⟩ []) := by
  constructor
  · intro hnf
    simp [Money.tryParseCore, hv, hu, hs, hup, hnf]
  · intro hf hdim
    simp [Money.tryParseCore, hv, hu, hs, hup, hf, hdim]

/-- Claim C4, witness: the string abc coerces to NaN and is rejected with the
updatedAt error, while the boolean true coerces to the finite 1 and is
accepted. -/
theorem money_updatedAt_coercion_witness :
    Money.tryParseCore 0
      [("dimension", .str "Money"), ("unit", .str "USD"),
       ("value", .num (.fin 15)), ("updatedAt", .str "abc")] =
      .err (.updatedAtInvalid (jsToNumber (.str "abc"))) ∧
    Money.tryParseCore 0
      [("dimension", .str "Money"), ("unit", .str "USD"),
       ("value", .num (.fin 15)), ("updatedAt", .boolean true)] =
      .ok ⟨.fin 15, .USD, jsToNumber (.boolean true)⟩ [] := by
  constructor
  · exact (money_updatedAt_coercion 0
      [("dimension", .str "Money"), ("unit", .str "USD"),
       ("value", .num (.fin 15)), ("updatedAt", .str "abc")]
      (.fin 15) "USD" .USD (.str "abc") rfl rfl rfl rfl).1 rfl
  · exact (money_updatedAt_coercion 0
      [("dimension", .str "Money"), ("unit", .str "USD"),
       ("value", .num (.fin 15)), ("updatedAt", .boolean true)]
      (.fin 15) "USD" .USD (.boolean true) rfl rfl rfl rfl).2 rfl rfl

/-- Claim C5, counterexample.  A Length whose value is Infinity serializes with
a null value field (JSON has no Infinity), so parsing the serialization fails
with the non-numeric-value error instead of reproducing the quantity. -/
theorem length_nonfinite_roundtrip_cex :
    Length.tryParseCore (Length.toJson ⟨.posInf, .meter⟩) =
      .err (.valueNonNumeric (some .null)) := by
  rfl

/-- Claim C5, amended.  For quantities whose value is finite (and, for Money,
whose updatedAt is finite as well), parsing the JSON serialization of the
public fields succeeds and reproduces an equal quantity. -/
theorem parse_serialize_agreement_finite :
    (∀ l : Length, l.value.isFinite = true →
      Length.tryParseCore l.toJson = .ok l) ∧
    (∀ m : Mass, m.value.isFinite = true →
      Mass.tryParseCore m.toJson = .ok m) ∧
    (∀ t : Time, t.value.isFinite = true →
      Time.tryParseCore t.toJson = .ok t) ∧
    (∀ (now : ℚ) (m : Money), m.value.isFinite = true →
      m.updatedAt.isFinite = true →
      Money.tryParseCore now m.toJson = .ok m []) := by
  refine ⟨?_, ?_, ?_, ?_⟩
  · rintro ⟨v, u⟩ hfin
    cases v with
    | fin q =>
      simp [Length.toJson, Length.tryParseCore, jsLookup, jsonOfNum,
        lengthUnitOfString_toString, isDimStr]
    | nan => simp [JsNum.isFinite] at hfin
    | posInf => simp [JsNum.isFinite] at hfin
    | negInf => simp [JsNum.isFinite] at hfin
  · rintro ⟨v, u⟩ hfin
    cases v with
    | fin q =>
      simp [Mass.toJson, Mass.tryParseCore, jsLookup, jsonOfNum,
        massUnitOfString_toString, isDimStr]
    | nan => simp [JsNum.isFinite] at hfin
    | posInf => simp [JsNum.isFinite] at hfin
    | negInf => simp [JsNum.isFinite] at hfin
  · rintro ⟨v, u⟩ hfin
    cases v with
    | fin q =>
      simp [Time.toJson, Time.tryParseCore, jsLookup, jsonOfNum,
        timeUnitOfString_toString, isDimStr]
    | nan => simp [JsNum.isFinite] at hfin
    | posInf => simp [JsNum.isFinite] at hfin
    | negInf => simp [JsNum.isFinite] at hfin
  · rintro now ⟨v, u, t⟩ hfin hup
    cases v with
    | fin q =>
      cases t with
      | fin r =>
        simp [Money.toJson, Money.tryParseCore, jsLookup, jsonOfNum,
          moneyUnitOfString_toString, isDimStr, jsToNumber, JsNum.isFinite]
      | nan => simp [JsNum.isFinite] at hup
      | posInf => simp [JsNum.isFinite] at hup
      | negInf => simp [JsNum.isFinite] at hup
    | nan => simp [JsNum.isFinite] at hfin
    | posInf => simp [JsNum.isFinite] at hfin
    | negInf => simp [JsNum.isFinite] at hfin

/-- Claim C5, witness: concrete finite quantities of each dimension round-trip
through their serialization. -/
theorem parse_serialize_agreement_finite_witness :
    Length.tryParseCore (Length.toJson ⟨.fin 15, .foot⟩) = .ok ⟨.fin 15, .foot⟩ ∧
    Mass.tryParseCore (Mass.toJson ⟨.fin 15, .kilogram⟩) = .ok ⟨.fin 15, .kilogram⟩ ∧
    Time.tryParseCore (Time.toJson ⟨.fin 10, .hour⟩) = .ok ⟨.fin 10, .hour⟩ ∧
    Money.tryParseCore 0 (Money.toJson ⟨.fin 15, .USD, .fin 1715731200000⟩) =
      .ok ⟨.fin 15, .USD, .fin 1715731200000⟩ [] := by
  exact ⟨parse_serialize_agreement_finite.1 ⟨.fin 15, .foot⟩ rfl,
    parse_serialize_agreement_finite.2.1 ⟨.fin 15, .kilogram⟩ rfl,
    parse_serialize_agreement_finite.2.2.1 ⟨.fin 10, .hour⟩ rfl,
    parse_serialize_agreement_finite.2.2.2 0 ⟨.fin 15, .USD, .fin 1715731200000⟩ rfl rfl⟩

/-- Claim C8.  On an object with valid value, unit and Money dimension but no
updatedAt field, tryParse succeeds with the current time as the timestamp and
produces exactly one warning, the missing-timestamp warning carrying that time;
parse then succeeds, invoking a supplied warnings callback exactly once with
the full one-element warnings list, and invoking nothing when the callback is
absent. -/
theorem money_missing_updatedAt_warning (now : ℚ) (o : List (String × JsValue))
    (v : JsNum) (s : String) (u : MoneyUnit)
    (hv : jsLookup o "value" = some (.num v))
    (hu : jsLookup o "unit" = some (.str s))
    (hs : moneyUnitOfString s = some u)
    (hnone : jsLookup o "updatedAt" = none)
    (hdim : isDimStr (jsLookup o "dimension") "Money" = true) :
    Money.tryParseCore now o = .ok ⟨v, u, .fin now⟩ [⟨now⟩] ∧
    MoneyParseWarning.warning ⟨now⟩ =
      "data.updatedAt is missing; using current timestamp" ∧
    Money.parse now (.objIn o) true = .ok (⟨v, u, .fin now⟩, [[⟨now⟩]]) ∧
    Money.parse now (.objIn o) false = .ok (⟨v, u, .fin now⟩, []) := by
  refine ⟨?_, rfl, ?_, ?_⟩
  · simp [Money.tryParseCore, hv, hu, hs, hnone, hdim]
  · simp [Money.parse, Money.tryParse, Money.tryParseCore, hv, hu, hs, hnone, hdim]
  · simp [Money.parse, Money.tryParse, Money.tryParseCore, hv, hu, hs, hnone, hdim]

/-- Claim C8, witness at the object with dimension Money, unit USD, value 15
and no updatedAt, read at a fixed current time. -/
theorem money_missing_updatedAt_warning_witness :
    Money.tryParseCore 1715731200000
      [("dimension", .str "Money"), ("unit", .str "USD"), ("value", .num (.fin 15))] =
      .ok ⟨.fin 15, .USD, .fin 1715731200000⟩ [⟨1715731200000⟩] ∧
    MoneyParseWarning.warning ⟨1715731200000⟩ =
      "data.updatedAt is missing; using current timestamp" ∧
    Money.parse 1715731200000
      (.objIn [("dimension", .str "Money"), ("unit", .str "USD"),
        ("value", .num (.fin 15))]) true =
      .ok (⟨.fin 15, .USD, .fin 1715731200000⟩, [[⟨1715731200000⟩]]) ∧
    Money.parse 1715731200000
      (.objIn [("dimension", .str "Money"), ("unit", .str "USD"),
        ("value", .num (.fin 15))]) false =
      .ok (⟨.fin 15, .USD, .fin 1715731200000⟩, []) := by
  exact money_missing_updatedAt_warning 1715731200000
    [("dimension", .str "Money"), ("unit", .str "USD"), ("value", .num (.fin 15))]
    (.fin 15) "USD" .USD rfl rfl rfl rfl rfl

/-- Claim C9.  Whenever a tryParse succeeds, the returned quantity carries the
constant dimension tag of its dimension, a unit whose string is in the closed
unit set and equals the unit field of the input object, and the value field of
the input object unchanged. -/
theorem tryParse_success_postcondition :
    (∀ o q, Length.tryParseCore o = .ok q →
      q.dimension = "Length" ∧ q.unit.toString ∈ LENGTH_UNITS ∧
      jsLookup o "unit" = some (.str q.unit.toString) ∧
      jsLookup o "value" = some (.num q.value)) ∧
    (∀ o q, Mass.tryParseCore o = .ok q →
      q.dimension = "Mass" ∧ q.unit.toString ∈ MASS_UNITS ∧
      jsLookup o "unit" = some (.str q.unit.toString) ∧
      jsLookup o "value" = some (.num q.value)) ∧
    (∀ o q, Time.tryParseCore o = .ok q →
      q.dimension = "Time" ∧ q.unit.toString ∈ TIME_UNITS ∧
      jsLookup o "unit" = some (.str q.unit.toString) ∧
      jsLookup o "value" = some (.num q.value)) ∧
    (∀ now o q ws, Money.tryParseCore now o = .ok q ws →
      q.dimension = "Money" ∧ q.unit.toString ∈ MONEY_UNITS ∧
      jsLookup o "unit" = some (.str q.unit.toString) ∧
      jsLookup o "value" = some (.num q.value)) := by
  refine ⟨?_, ?_, ?_, ?_⟩
  · intro o q h
    unfold Length.tryParseCore at h
    split at h
    next v heqv =>
      split at h
      next s heqs =>
        split at h
        next u hequ =>
          split at h
          next hdim =>
            cases h
            exact ⟨rfl, lengthUnit_toString_mem u,
              by rw [heqs, lengthUnitOfString_eq_some hequ], heqv⟩
          next hdim => exact LengthParseResult.noConfusion h
        next hequ => exact LengthParseResult.noConfusion h
      next other heqs => exact LengthParseResult.noConfusion h
    next other heqv => exact LengthParseResult.noConfusion h
  · intro o q h
    unfold Mass.tryParseCore at h
    split at h
    next v heqv =>
      split at h
      next s heqs =>
        split at h
        next u hequ =>
          split at h
          next hdim =>
            cases h
            exact ⟨rfl, massUnit_toString_mem u,
              by rw [heqs, massUnitOfString_eq_some hequ], heqv⟩
          next hdim => exact MassParseResult.noConfusion h
        next hequ => exact MassParseResult.noConfusion h
      next other heqs => exact MassParseResult.noConfusion h
    next other heqv => exact MassParseResult.noConfusion h
  · intro o q h
    unfold Time.tryParseCore at h
    split at h
    next v heqv =>
      split at h
      next s heqs =>
        split at h
        next u hequ =>
          split at h
          next hdim =>
            cases h
            exact ⟨rfl, timeUnit_toString_mem u,
              by rw [heqs, timeUnitOfString_eq_some hequ], heqv⟩
          next hdim => exact TimeParseResult.noConfusion h
        next hequ => exact TimeParseResult.noConfusion h
      next heqs => exact TimeParseResult.noConfusion h
    next heqv => exact TimeParseResult.noConfusion h
  · intro now o q ws h
    unfold Money.tryParseCore at h
    split at h
    next v heqv =>
      split at h
      next s heqs =>
        split at h
        next u hequ =>
          split at h
          next uv hequp =>
            split at h
            all_goals try split at h
            all_goals
              first
                | (cases h
                   exact ⟨rfl, moneyUnit_toString_mem u,
                     by rw [heqs, moneyUnitOfString_eq_some hequ], heqv⟩)
                | exact MoneyParseResult.noConfusion h
          next hequp =>
            split at h
            next hdim =>
              cases h
              exact ⟨rfl, moneyUnit_toString_mem u,
                by rw [heqs, moneyUnitOfString_eq_some hequ], heqv⟩
            next hdim => exact MoneyParseResult.noConfusion h
        next hequ => exact MoneyParseResult.noConfusion h
      next heqs => exact MoneyParseResult.noConfusion h
    next other heqv => exact MoneyParseResult.noConfusion h

/-- Claim C9, witness: concrete successful parses of each dimension satisfy the
postcondition. -/
theorem tryParse_success_postcondition_witness :
    ((⟨.fin 15, .foot⟩ : Length).dimension = "Length" ∧
      LengthUnit.foot.toString ∈ LENGTH_UNITS ∧
      jsLookup [("dimension", .str "Length"), ("unit", .str "Foot"),
        ("value", .num (.fin 15))] "unit" = some (.str LengthUnit.foot.toString) ∧
      jsLookup [("dimension", .str "Length"), ("unit", .str "Foot"),
        ("value", .num (.fin 15))] "value" = some (.num (.fin 15))) ∧
    ((⟨.fin 15, .kilogram⟩ : Mass).dimension = "Mass" ∧
      MassUnit.kilogram.toString ∈ MASS_UNITS ∧
      jsLookup [("dimension", .str "Mass"), ("unit", .str "Kilogram"),
        ("value", .num (.fin 15))] "unit" = some (.str MassUnit.kilogram.toString) ∧
      jsLookup [("dimension", .str "Mass"), ("unit", .str "Kilogram"),
        ("value", .num (.fin 15))] "value" = some (.num (.fin 15))) ∧
    ((⟨.fin 10, .hour⟩ : Time).dimension = "Time" ∧
      TimeUnit.hour.toString ∈ TIME_UNITS ∧
      jsLookup [("dimension", .str "Time"), ("unit", .str "Hour"),
        ("value", .num (.fin 10))] "unit" = some (.str TimeUnit.hour.toString) ∧
      jsLookup [("dimension", .str "Time"), ("unit", .str "Hour"),
        ("value", .num (.fin 10))] "value" = some (.num (.fin 10))) ∧
    ((⟨.fin 15, .USD, .fin 2⟩ : Money).dimension = "Money" ∧
      MoneyUnit.USD.toString ∈ MONEY_UNITS ∧
      jsLookup [("dimension", .str "Money"), ("unit", .str "USD"),
        ("value", .num (.fin 15)), ("updatedAt", .num (.fin 2))] "unit" =
          some (.str MoneyUnit.USD.toString) ∧
      jsLookup [("dimension", .str "Money"), ("unit", .str "USD"),
        ("value", .num (.fin 15)), ("updatedAt", .num (.fin 2))] "value" =
          some (.num (.fin 15))) := by
  exact ⟨tryParse_success_postcondition.1
      [("dimension", .str "Length"), ("unit", .str "Foot"), ("value", .num (.fin 15))]
      ⟨.fin 15, .foot⟩ rfl,
    tryParse_success_postcondition.2.1
      [("dimension", .str "Mass"), ("unit", .str "Kilogram"), ("value", .num (.fin 15))]
      ⟨.fin 15, .kilogram⟩ rfl,
    tryParse_success_postcondition.2.2.1
      [("dimension", .str "Time"), ("unit", .str "Hour"), ("value", .num (.fin 10))]
      ⟨.fin 10, .hour⟩ rfl,
    tryParse_success_postcondition.2.2.2 0
      [("dimension", .str "Money"), ("unit", .str "USD"),
       ("value", .num (.fin 15)), ("updatedAt", .num (.fin 2))]
      ⟨.fin 15, .USD, .fin 2⟩ [] rfl⟩

/-- Claim C10.  When the dimension check fails after the earlier validations
pass, the Length error carries the constant tag Length of the freshly
constructed candidate, while the Mass and Money errors carry the dimension
field of the offending input itself. -/
theorem dimension_error_payload_sources :
    (∀ o v s u, jsLookup o "value" = some (.num v) →
      jsLookup o "unit" = some (.str s) →
      lengthUnitOfString s = some u →
      isDimStr (jsLookup o "dimension") "Length" = false →
      Length.tryParseCore o = .err (.dimensionNotLength (some (.str "Length")))) ∧
    (∀ o v s u, jsLookup o "value" = some (.num v) →
      jsLookup o "unit" = some (.str s) →
      massUnitOfString s = some u →
      isDimStr (jsLookup o "dimension") "Mass" = false →
      Mass.tryParseCore o = .err (.dimensionNotMass (jsLookup o "dimension"))) ∧
    (∀ now o v s u, jsLookup o "value" = some (.num v) →
      jsLookup o "unit" = some (.str s) →
      moneyUnitOfString s = some u →
      (jsLookup o "updatedAt" = none ∨
        ∃ uv, jsLookup o "updatedAt" = some uv ∧ (jsToNumber uv).isFinite = true) →
      isDimStr (jsLookup o "dimension") "Money" = false →
      Money.tryParseCore now o = .err (.dimensionNotMoney (jsLookup o "dimension"))) := by
  refine ⟨?_, ?_, ?_⟩
  · intro o v s u hv hu hs hdim
    simp [Length.tryParseCore, hv, hu, hs, hdim, Length.dimension]
  · intro o v s u hv hu hs hdim
    simp [Mass.tryParseCore, hv, hu, hs, hdim]
  · intro now o v s u hv hu hs hup hdim
    rcases hup with hnone | ⟨uv, hsome, hfin⟩
    · simp [Money.tryParseCore, hv, hu, hs, hnone, hdim]
    · simp [Money.tryParseCore, hv, hu, hs, hsome, hfin, hdim]

/-- Claim C10, witness: inputs whose dimension field holds the wrong tag show
the Length payload constant at Length while the Mass and Money payloads echo
the input. -/
theorem dimension_error_payload_sources_witness :
    Length.tryParseCore
      [("dimension", .str "Mass"), ("unit", .str "Foot"), ("value", .num (.fin 1))] =
      .err (.dimensionNotLength (some (.str "Length"))) ∧
    Mass.tryParseCore
      [("dimension", .str "Length"), ("unit", .str "Pound"), ("value", .num (.fin 1))] =
      .err (.dimensionNotMass (jsLookup
        [("dimension", .str "Length"), ("unit", .str "Pound"), ("value", .num (.fin 1))]
        "dimension")) ∧
    Money.tryParseCore 0
      [("dimension", .str "Length"), ("unit", .str "USD"), ("value", .num (.fin 1))] =
      .err (.dimensionNotMoney (jsLookup
        [("dimension", .str "Length"), ("unit", .str "USD"), ("value", .num (.fin 1))]
        "dimension")) := by
  exact ⟨dimension_error_payload_sources.1
      [("dimension", .str "Mass"), ("unit", .str "Foot"), ("value", .num (.fin 1))]
      (.fin 1) "Foot" .foot rfl rfl rfl rfl,
    dimension_error_payload_sources.2.1
      [("dimension", .str "Length"), ("unit", .str "Pound"), ("value", .num (.fin 1))]
      (.fin 1) "Pound" .pound rfl rfl rfl rfl,
    dimension_error_payload_sources.2.2 0
      [("dimension", .str "Length"), ("unit", .str "USD"), ("value", .num (.fin 1))]
      (.fin 1) "USD" .USD rfl rfl rfl (Or.inl rfl) rfl⟩
